import Mathlib

/-!
Shallow embedding of the obake launcher (src/launcher/src/{main,config,setup}.rs).

External effects (environment variables, file loading, the systemd manager
connection and unit start/stop calls) are modelled by a `World` record whose
fields give the outcome of each effectful operation.  The two orchestration
entry points `setup_start` and `setup_stop` are translated from `main.rs` as
functions from a `World` to a pair of an event trace (the externally visible
attempts, in program order) and a final `Except` result, mirroring the `?`
propagation of the Rust code.
-/

/-- Configuration for a single audio interface (config.rs `AudioInterface`). -/
structure AudioInterface where
  interface_type : String
  unit : Option String
deriving DecidableEq, Repr

/-- Audio configuration section (config.rs `AudioConfig`).  The Rust `HashMap`
of interfaces is modelled as an association list with unique keys; only keyed
lookup is used by the program. -/
structure AudioConfig where
  default_interface : String
  interfaces : List (String × AudioInterface)
deriving DecidableEq, Repr

/-- Data directory section (config.rs `DataConfig`). -/
structure DataConfig where
  images_dir : String
  setups_dir : String
  data_dir : String
deriving DecidableEq, Repr

/-- Root of the primary configuration (config.rs `Config`). -/
structure Config where
  audio : AudioConfig
  data : DataConfig
deriving DecidableEq, Repr

/-- Configuration for a single shape (setup.rs `ShapeConfig`). -/
structure ShapeConfig where
  image : Option String
  env : Option (List (String × String))
deriving DecidableEq, Repr

/-- Main setup section (setup.rs `SetupSection`): the chosen interface and the
ordered list of shape names. -/
structure SetupSection where
  interface : String
  shapes : List String
deriving DecidableEq, Repr

/-- Setup descriptor (setup.rs `SetupConfig`): the setup section plus the shape
catalog, the latter modelled as an association list as for interfaces. -/
structure SetupConfig where
  setup : SetupSection
  shapes : List (String × ShapeConfig)
deriving DecidableEq, Repr

/-- Errors produced by the launcher or reported by its external collaborators.
World-supplied operations pick their own constructor; the constructors emitted
by the embedded code itself are `configNotFound` (Config::load exhausting its
search paths) and `interfaceNotFound` (setup_start's anyhow! error). -/
inductive Err where
  | configNotFound (searched : List String)
  | loadFailed (path : String)
  | ioError (path : String)
  | interfaceNotFound (name : String)
  | unitOpFailed (unit : String)
  | dbusError
deriving DecidableEq, Repr

/-- Externally visible attempts made by `setup_start` / `setup_stop`, recorded
in program order. -/
inductive Event where
  | loadConfig
  | listSetupsDir (dir : String)
  | loadSetup (path : String)
  | startUnit (unit : String)
  | stopUnit (unit : String)
  | shapeStartAttempt (name : String)
  | shapeStartFound (name : String)
  | shapeStartNotFound (name : String)
  | shapeStopAttempt (name : String)
  | shapeStopFound (name : String)
  | shapeStopNotFound (name : String)
deriving DecidableEq, Repr

/-- The external world: outcome of every effectful operation the launcher can
perform.  Functions are deterministic within one run, matching the fact that
each Rust invocation sees one fixed environment. -/
structure World where
  /-- Value of the OBAKE_CONFIG_FILE environment variable, if set. -/
  obakeConfigFile : Option String
  /-- Value of the HOME environment variable, if set (Rust uses
  `unwrap_or_default()`, i.e. the empty string when absent). -/
  home : Option String
  /-- Whether `Path::new(path).exists()` holds. -/
  fileExists : String → Bool
  /-- Outcome of `Figment::new().merge(Toml::file(path)).extract::<Config>()`. -/
  loadConfigFile : String → Except Err Config
  /-- Outcome of `Figment::new().merge(Toml::file(path)).extract::<SetupConfig>()`. -/
  loadSetupFile : String → Except Err SetupConfig
  /-- Outcome of `std::fs::read_dir(dir)` (contents are only logged). -/
  readDir : String → Except Err Unit
  /-- Outcome of `get_manager()` (session connection + ManagerProxy). -/
  connectManager : Except Err Unit
  /-- Outcome of `manager.start_unit(name, Mode::Replace)`. -/
  startUnit : String → Except Err Unit
  /-- Outcome of `manager.stop_unit(name, Mode::Replace)`. -/
  stopUnit : String → Except Err Unit

/-- Config::load_from_path (config.rs:288): figment extraction from the path. -/
def Config.load_from_path (w : World) (path : String) : Except Err Config :=
  w.loadConfigFile path

/-- Config::load (config.rs:214): the OBAKE_CONFIG_FILE override short-circuits
to loading exactly that path; otherwise the first existing search path is
loaded, and exhaustion is an error naming the searched paths. -/
def Config.load (w : World) : Except Err Config :=
  match w.obakeConfigFile with
  | some config_file => Config.load_from_path w config_file
  | none =>
    let search_paths : List String :=
      [(w.home.getD "") ++ "/.config/obake/config.toml",
       "/etc/obake/config.toml"]
    match search_paths.find? (fun path => w.fileExists path) with
    | some path => Config.load_from_path w path
    | none => .error (.configNotFound search_paths)

/-- Config::get_audio_interface (config.rs:380): HashMap lookup by name. -/
def Config.get_audio_interface (c : Config) (name : String) :
    Option AudioInterface :=
  c.audio.interfaces.lookup name

/-- Config::get_setups_dir (config.rs:480). -/
def Config.get_setups_dir (c : Config) : String :=
  c.data.setups_dir

/-- SetupConfig::load_from_path (setup.rs:78): figment extraction. -/
def SetupConfig.load_from_path (w : World) (path : String) :
    Except Err SetupConfig :=
  w.loadSetupFile path

/-- SetupConfig::get_shape (setup.rs:127): HashMap lookup by name. -/
def SetupConfig.get_shape (sc : SetupConfig) (name : String) :
    Option ShapeConfig :=
  sc.shapes.lookup name

/-- Body of setup_start's shape loop (main.rs:235-252): log the attempt, look
the name up in the catalog, and log found/not-found; a missing shape is skipped
without error. -/
def startShapeStep (sc : SetupConfig) (name : String) : List Event :=
  match sc.get_shape name with
  | some _ => [.shapeStartAttempt name, .shapeStartFound name]
  | none => [.shapeStartAttempt name, .shapeStartNotFound name]

/-- Body of setup_stop's shape loop (main.rs:266-279), identical lookup policy. -/
def stopShapeStep (sc : SetupConfig) (name : String) : List Event :=
  match sc.get_shape name with
  | some _ => [.shapeStopAttempt name, .shapeStopFound name]
  | none => [.shapeStopAttempt name, .shapeStopNotFound name]

/-- setup_start (main.rs:195-256).  Each `?` of the Rust code becomes an error
branch returning the trace accumulated so far. -/
def setup_start (w : World) : List Event × Except Err Unit :=
  match Config.load w with
  | .error e => ([.loadConfig], .error e)
  | .ok config =>
    let setups_dir := config.get_setups_dir
    let ev1 : List Event := [.loadConfig, .listSetupsDir setups_dir]
    match w.readDir setups_dir with
    | .error e => (ev1, .error e)
    | .ok _ =>
      let ev2 := ev1 ++ [Event.loadSetup "setup.toml"]
      match SetupConfig.load_from_path w "setup.toml" with
      | .error e => (ev2, .error e)
      | .ok setup_config =>
        let interface_name := setup_config.setup.interface
        let ev3 := ev2 ++ [Event.loadConfig]
        match Config.load w with
        | .error e => (ev3, .error e)
        | .ok config2 =>
          match config2.get_audio_interface interface_name with
          | none => (ev3, .error (.interfaceNotFound interface_name))
          | some intf =>
            match intf.unit with
            | some unit =>
              match w.connectManager with
              | .error e => (ev3, .error e)
              | .ok _ =>
                let ev4 := ev3 ++ [Event.startUnit unit]
                match w.startUnit unit with
                | .error e => (ev4, .error e)
                | .ok _ =>
                  (ev4 ++ setup_config.setup.shapes.flatMap
                      (startShapeStep setup_config), .ok ())
            | none =>
              (ev3 ++ setup_config.setup.shapes.flatMap
                  (startShapeStep setup_config), .ok ())

/-- setup_stop (main.rs:258-301).  The descriptor is loaded first, the shape
loop runs over the reversed order, and only then is the Config loaded and the
interface unit stopped; a missing interface or missing unit is logged and
non-fatal, while a failing stop_unit call propagates via `?`. -/
def setup_stop (w : World) : List Event × Except Err Unit :=
  let ev0 : List Event := [.loadSetup "setup.toml"]
  match SetupConfig.load_from_path w "setup.toml" with
  | .error e => (ev0, .error e)
  | .ok setup_config =>
    let ev1 := ev0 ++ setup_config.setup.shapes.reverse.flatMap
        (stopShapeStep setup_config)
    let interface_name := setup_config.setup.interface
    let ev2 := ev1 ++ [Event.loadConfig]
    match Config.load w with
    | .error e => (ev2, .error e)
    | .ok config =>
      match config.get_audio_interface interface_name with
      | some intf =>
        match intf.unit with
        | some unit =>
          match w.connectManager with
          | .error e => (ev2, .error e)
          | .ok _ =>
            let ev3 := ev2 ++ [Event.stopUnit unit]
            match w.stopUnit unit with
            | .error e => (ev3, .error e)
            | .ok _ => (ev3, .ok ())
        | none => (ev2, .ok ())
      | none => (ev2, .ok ())

/-- Decidable equality for `Except`, so concrete runs can be checked with
`decide`. -/
instance {ε α : Type} [DecidableEq ε] [DecidableEq α] :
    DecidableEq (Except ε α) := fun a b =>
  match a, b with
  | .ok x, .ok y =>
    if h : x = y then .isTrue (by rw [h]) else .isFalse (by simp [h])
  | .error x, .error y =>
    if h : x = y then .isTrue (by rw [h]) else .isFalse (by simp [h])
  | .ok _, .error _ => .isFalse (by simp)
  | .error _, .ok _ => .isFalse (by simp)

/-- Projection selecting shape-stop lookup attempts from a trace. -/
def stopAttemptName : Event → Option String
  | .shapeStopAttempt name => some name
  | _ => none

/-- Projection selecting shape-start lookup attempts from a trace. -/
def startAttemptName : Event → Option String
  | .shapeStartAttempt name => some name
  | _ => none

/-- The shape-stop loop emits exactly one lookup attempt per listed name, in
list order. -/
theorem filterMap_stopShapeStep (sc : SetupConfig) (names : List String) :
    (names.flatMap (stopShapeStep sc)).filterMap stopAttemptName = names := by
  induction names with
  | nil => rfl
  | cons n ns ih =>
    rw [List.flatMap_cons, List.filterMap_append, ih]
    cases h : sc.get_shape n <;> simp [stopShapeStep, h, stopAttemptName]

/-- The shape-start loop emits exactly one lookup attempt per listed name, in
list order. -/
theorem filterMap_startShapeStep (sc : SetupConfig) (names : List String) :
    (names.flatMap (startShapeStep sc)).filterMap startAttemptName = names := by
  induction names with
  | nil => rfl
  | cons n ns ih =>
    rw [List.flatMap_cons, List.filterMap_append, ih]
    cases h : sc.get_shape n <;> simp [startShapeStep, h, startAttemptName]

/-- The shape-start loop emits only shape events: no unit operation, no config
or descriptor load, no listing. -/
theorem startShapeStep_only_shape_events (sc : SetupConfig)
    (names : List String) (ev : Event)
    (hev : ev ∈ names.flatMap (startShapeStep sc)) :
    ∃ n, ev = .shapeStartAttempt n ∨ ev = .shapeStartFound n ∨
      ev = .shapeStartNotFound n := by
  rcases List.mem_flatMap.mp hev with ⟨n, _, hn⟩
  refine ⟨n, ?_⟩
  cases h : sc.get_shape n <;> simp [startShapeStep, h] at hn <;> tauto

/-- The shape-stop loop emits only shape events. -/
theorem stopShapeStep_only_shape_events (sc : SetupConfig)
    (names : List String) (ev : Event)
    (hev : ev ∈ names.flatMap (stopShapeStep sc)) :
    ∃ n, ev = .shapeStopAttempt n ∨ ev = .shapeStopFound n ∨
      ev = .shapeStopNotFound n := by
  rcases List.mem_flatMap.mp hev with ⟨n, _, hn⟩
  refine ⟨n, ?_⟩
  cases h : sc.get_shape n <;> simp [stopShapeStep, h] at hn <;> tauto

/-- A name present in the catalog yields a found event in the start loop. -/
theorem shapeStartFound_mem (sc : SetupConfig) (names : List String)
    (n : String) (hn : n ∈ names) (h : sc.get_shape n ≠ none) :
    Event.shapeStartFound n ∈ names.flatMap (startShapeStep sc) := by
  refine List.mem_flatMap.mpr ⟨n, hn, ?_⟩
  cases hg : sc.get_shape n <;> simp [startShapeStep, hg] at h ⊢

/-- A name absent from the catalog yields a not-found event in the start loop. -/
theorem shapeStartNotFound_mem (sc : SetupConfig) (names : List String)
    (n : String) (hn : n ∈ names) (h : sc.get_shape n = none) :
    Event.shapeStartNotFound n ∈ names.flatMap (startShapeStep sc) := by
  refine List.mem_flatMap.mpr ⟨n, hn, ?_⟩
  simp [startShapeStep, h]

/-- Example interface backed by a systemd unit. -/
def exIntf : AudioInterface := ⟨"jack", some "jack.service"⟩

/-- Example interface with no systemd unit. -/
def exIntfNoUnit : AudioInterface := ⟨"alsa", none⟩

/-- Example primary configuration with two interfaces. -/
def exConfig : Config :=
  ⟨⟨"mixpre", [("mixpre", exIntf), ("alsa", exIntfNoUnit)]⟩,
   ⟨"/img", "/setups", "/data"⟩⟩

/-- Example shape catalog: shapes "a" and "c" exist, "b" does not. -/
def exShapes : List (String × ShapeConfig) :=
  [("a", ⟨some "a.sif", none⟩), ("c", ⟨none, some [("K", "V")]⟩)]

/-- Example descriptor: interface with a unit, shape order ["a","b","c"] with
"b" dangling. -/
def exSetup : SetupConfig := ⟨⟨"mixpre", ["a", "b", "c"]⟩, exShapes⟩

/-- Example descriptor naming the unit-less interface. -/
def exSetupNoUnit : SetupConfig := ⟨⟨"alsa", ["a", "b", "c"]⟩, exShapes⟩

/-- Example descriptor naming an interface absent from the configuration. -/
def exSetupBadIntf : SetupConfig := ⟨⟨"missing", ["a", "b", "c"]⟩, exShapes⟩

/-- Baseline world: override config path set, every operation succeeds. -/
def baseWorld : World where
  obakeConfigFile := some "/cfg/config.toml"
  home := none
  fileExists := fun _ => false
  loadConfigFile := fun _ => .ok exConfig
  loadSetupFile := fun _ => .ok exSetup
  readDir := fun _ => .ok ()
  connectManager := .ok ()
  startUnit := fun _ => .ok ()
  stopUnit := fun _ => .ok ()

/-- World where every stop_unit call fails at the service manager. -/
def stopFailWorld : World :=
  { baseWorld with stopUnit := fun u => .error (.unitOpFailed u) }

/-- World where every start_unit call fails at the service manager. -/
def startFailWorld : World :=
  { baseWorld with startUnit := fun u => .error (.unitOpFailed u) }

/-- World where loading the primary configuration file fails. -/
def configFailWorld : World :=
  { baseWorld with loadConfigFile := fun p => .error (.loadFailed p) }

/-- World whose descriptor names the unit-less interface. -/
def noUnitWorld : World :=
  { baseWorld with loadSetupFile := fun _ => .ok exSetupNoUnit }

/-- World whose descriptor names a missing interface. -/
def badIntfWorld : World :=
  { baseWorld with loadSetupFile := fun _ => .ok exSetupBadIntf }

/-- World where listing the setups directory fails. -/
def dirFailWorld : World :=
  { baseWorld with readDir := fun d => .error (.ioError d) }

/-- World with the override variable pointing at a broken file while both
search paths exist and would load fine. -/
def overrideFailWorld : World :=
  { baseWorld with
    obakeConfigFile := some "/override/config.toml"
    fileExists := fun _ => true
    loadConfigFile := fun p =>
      if p = "/override/config.toml" then .error (.loadFailed p)
      else .ok exConfig }

/-- C1, counterexample: with the interface found and carrying a unit, a failing
stop_unit call makes the STOP run return that error rather than success, so the
failure is not merely logged. -/
theorem setup_stop_unit_failure_not_logged_counterexample :
    (setup_stop stopFailWorld).2 = .error (.unitOpFailed "jack.service") := by
  decide

/-- C1 (amended): during STOP, when the interface is found and has a unit, a
failing service-manager stop operation for that unit aborts the run: setup_stop
propagates exactly that error instead of returning success. -/
theorem setup_stop_unit_failure_aborts (w : World) (sc : SetupConfig)
    (config : Config) (intf : AudioInterface) (u : String) (e : Err)
    (hsc : w.loadSetupFile "setup.toml" = .ok sc)
    (hcfg : Config.load w = .ok config)
    (hintf : config.get_audio_interface sc.setup.interface = some intf)
    (hu : intf.unit = some u)
    (hm : w.connectManager = .ok ())
    (hstop : w.stopUnit u = .error e) :
    (setup_stop w).2 = .error e := by
  simp [setup_stop, SetupConfig.load_from_path, hsc, hcfg, hintf, hu, hm,
    hstop]

/-- C1, witness: concrete world exercising the amended theorem. -/
theorem setup_stop_unit_failure_aborts_witness :
    stopFailWorld.stopUnit "jack.service" = .error (.unitOpFailed "jack.service") ∧
      (setup_stop stopFailWorld).2 = .error (.unitOpFailed "jack.service") :=
  ⟨by decide,
   setup_stop_unit_failure_aborts stopFailWorld exSetup exConfig exIntf
     "jack.service" (.unitOpFailed "jack.service") (by decide) (by decide)
     (by decide) (by decide) (by decide) (by decide)⟩

/-- C2: during START, when the resolved interface has a unit and starting that
unit fails, the whole operation aborts with that failure and no shape is looked
up or processed: the trace holds no shape event of any kind. -/
theorem setup_start_unit_failure_aborts_before_shapes (w : World)
    (config : Config) (sc : SetupConfig) (intf : AudioInterface)
    (u : String) (e : Err)
    (hcfg : Config.load w = .ok config)
    (hdir : w.readDir config.data.setups_dir = .ok ())
    (hsc : w.loadSetupFile "setup.toml" = .ok sc)
    (hintf : config.get_audio_interface sc.setup.interface = some intf)
    (hu : intf.unit = some u)
    (hm : w.connectManager = .ok ())
    (hstart : w.startUnit u = .error e) :
    (setup_start w).2 = .error e ∧
      ∀ name, Event.shapeStartAttempt name ∉ (setup_start w).1 ∧
        Event.shapeStartFound name ∉ (setup_start w).1 ∧
        Event.shapeStartNotFound name ∉ (setup_start w).1 := by
  simp [setup_start, SetupConfig.load_from_path, Config.get_setups_dir,
    hcfg, hdir, hsc, hintf, hu, hm, hstart]

/-- C2, witness: concrete world where start_unit fails and START aborts with no
shape event. -/
theorem setup_start_unit_failure_aborts_before_shapes_witness :
    (setup_start startFailWorld).2 = .error (.unitOpFailed "jack.service") ∧
      ∀ name, Event.shapeStartAttempt name ∉ (setup_start startFailWorld).1 ∧
        Event.shapeStartFound name ∉ (setup_start startFailWorld).1 ∧
        Event.shapeStartNotFound name ∉ (setup_start startFailWorld).1 :=
  setup_start_unit_failure_aborts_before_shapes startFailWorld exConfig
    exSetup exIntf "jack.service" (.unitOpFailed "jack.service") (by decide)
    (by decide) (by decide) (by decide) (by decide) (by decide) (by decide)

/-- C3: whenever STOP reaches the interface with a unit, the shape-stop lookup
attempts are exactly the descriptor's shape order reversed, and the attempt to
stop the interface unit is the very last event of the run — with no assumption
on individual shape lookups, which may all fail. -/
theorem setup_stop_reverse_order_then_unit (w : World) (sc : SetupConfig)
    (config : Config) (intf : AudioInterface) (u : String)
    (hsc : w.loadSetupFile "setup.toml" = .ok sc)
    (hcfg : Config.load w = .ok config)
    (hintf : config.get_audio_interface sc.setup.interface = some intf)
    (hu : intf.unit = some u)
    (hm : w.connectManager = .ok ()) :
    (setup_stop w).1.filterMap stopAttemptName = sc.setup.shapes.reverse ∧
      ∃ pre, (setup_stop w).1 = pre ++ [Event.stopUnit u] := by
  rcases hstop : w.stopUnit u with e | x
  all_goals
    simp only [setup_stop, SetupConfig.load_from_path, hsc, hcfg, hintf, hu,
      hm, hstop]
    constructor
    · simp [List.filterMap_append, filterMap_stopShapeStep, stopAttemptName]
    · exact ⟨_, rfl⟩

/-- C3, witness: concrete run with shape order ["a","b","c"], "b" dangling,
showing stop attempts in order c, b, a with the unit stop last. -/
theorem setup_stop_reverse_order_then_unit_witness :
    (setup_stop baseWorld).1.filterMap stopAttemptName = ["c", "b", "a"] ∧
      ∃ pre, (setup_stop baseWorld).1 = pre ++ [Event.stopUnit "jack.service"] :=
  setup_stop_reverse_order_then_unit baseWorld exSetup exConfig exIntf
    "jack.service" (by decide) (by decide) (by decide) (by decide) (by decide)

/-- C4, counterexample: when the primary configuration fails to load, STOP
still processes every shape first and only then aborts — the Config is not
loaded before shape processing, and its load error does not prevent shape
processing. -/
theorem setup_stop_config_loaded_after_shapes_counterexample :
    Event.shapeStopAttempt "c" ∈ (setup_stop configFailWorld).1 ∧
      Event.shapeStopAttempt "a" ∈ (setup_stop configFailWorld).1 ∧
      (setup_stop configFailWorld).2 = .error (.loadFailed "/cfg/config.toml") := by
  decide

/-- C4 (amended): during STOP only the descriptor is loaded before shape
processing, and a descriptor load error aborts before any shape or interface
operation; the Config is loaded only after every shape has been processed, and
a Config load error aborts before any interface unit operation but after the
full shape pass. -/
theorem setup_stop_load_error_policy (w : World) :
    (∀ e, w.loadSetupFile "setup.toml" = .error e →
      setup_stop w = ([.loadSetup "setup.toml"], .error e)) ∧
    (∀ sc e, w.loadSetupFile "setup.toml" = .ok sc →
      Config.load w = .error e →
      (setup_stop w).2 = .error e ∧
        (setup_stop w).1.filterMap stopAttemptName = sc.setup.shapes.reverse ∧
        ∀ u, Event.stopUnit u ∉ (setup_stop w).1) := by
  constructor
  · intro e he
    simp [setup_stop, SetupConfig.load_from_path, he]
  · intro sc e hsc hcfg
    refine ⟨?_, ?_, ?_⟩
    · simp [setup_stop, SetupConfig.load_from_path, hsc, hcfg]
    · simp [setup_stop, SetupConfig.load_from_path, hsc, hcfg,
        List.filterMap_append, filterMap_stopShapeStep, stopAttemptName]
    · intro u hmem
      simp only [setup_stop, SetupConfig.load_from_path, hsc, hcfg] at hmem
      rcases List.mem_append.mp hmem with h | h
      · rcases List.mem_append.mp h with h | h
        · simp at h
        · rcases stopShapeStep_only_shape_events sc _ _ h with ⟨n, hn⟩
          rcases hn with hn | hn | hn <;> exact Event.noConfusion hn
      · simp at h

/-- C4, witness: concrete world where the Config fails to load and STOP aborts
after the full shape pass, with no unit operation. -/
theorem setup_stop_load_error_policy_witness :
    (setup_stop configFailWorld).2 = .error (.loadFailed "/cfg/config.toml") ∧
      (setup_stop configFailWorld).1.filterMap stopAttemptName = ["c", "b", "a"] ∧
      ∀ u, Event.stopUnit u ∉ (setup_stop configFailWorld).1 :=
  (setup_stop_load_error_policy configFailWorld).2 exSetup
    (.loadFailed "/cfg/config.toml") (by decide) (by decide)

/-- C5: once START reaches the shape loop (interface phase succeeded, either
with no unit or with a successful unit start), every name in shape order is
looked up in listed order, names missing from the catalog are skipped with a
not-found event, present names yield a found event, and the run returns
success regardless of missing names. -/
theorem setup_start_missing_shape_skipped (w : World) (config : Config)
    (sc : SetupConfig) (intf : AudioInterface)
    (hcfg : Config.load w = .ok config)
    (hdir : w.readDir config.data.setups_dir = .ok ())
    (hsc : w.loadSetupFile "setup.toml" = .ok sc)
    (hintf : config.get_audio_interface sc.setup.interface = some intf)
    (hunit : intf.unit = none ∨ ∃ u, intf.unit = some u ∧
      w.connectManager = .ok () ∧ w.startUnit u = .ok ()) :
    (setup_start w).2 = .ok () ∧
      (setup_start w).1.filterMap startAttemptName = sc.setup.shapes ∧
      ∀ name ∈ sc.setup.shapes,
        (sc.get_shape name = none →
          Event.shapeStartNotFound name ∈ (setup_start w).1) ∧
        (sc.get_shape name ≠ none →
          Event.shapeStartFound name ∈ (setup_start w).1) := by
  have htrace : (setup_start w).1 = [Event.loadConfig,
      Event.listSetupsDir config.data.setups_dir, Event.loadSetup "setup.toml",
      Event.loadConfig] ++
        (match intf.unit with
          | some u => [Event.startUnit u]
          | none => []) ++
        sc.setup.shapes.flatMap (startShapeStep sc) ∧
      (setup_start w).2 = .ok () := by
    rcases hunit with hu | ⟨u, hu, hm, hs⟩
    · constructor <;>
        simp [setup_start, SetupConfig.load_from_path, Config.get_setups_dir,
          hcfg, hdir, hsc, hintf, hu]
    · constructor <;>
        simp [setup_start, SetupConfig.load_from_path, Config.get_setups_dir,
          hcfg, hdir, hsc, hintf, hu, hm, hs]
  refine ⟨htrace.2, ?_, ?_⟩
  · rw [htrace.1, List.filterMap_append, List.filterMap_append,
      filterMap_startShapeStep]
    rcases hu : intf.unit with _ | u <;> simp [startAttemptName]
  · intro name hname
    constructor
    · intro hmiss
      rw [htrace.1]
      refine List.mem_append.mpr (Or.inr ?_)
      exact shapeStartNotFound_mem sc _ name hname hmiss
    · intro hfound
      rw [htrace.1]
      refine List.mem_append.mpr (Or.inr ?_)
      exact shapeStartFound_mem sc _ name hname hfound

/-- C5, witness: shape order ["a","b","c"] with "b" absent from the catalog —
"a" and "c" are found, "b" is skipped, and the run succeeds. -/
theorem setup_start_missing_shape_skipped_witness :
    exSetup.get_shape "b" = none ∧ "b" ∈ exSetup.setup.shapes ∧
      (setup_start baseWorld).2 = .ok () ∧
      (setup_start baseWorld).1.filterMap startAttemptName = ["a", "b", "c"] ∧
      Event.shapeStartNotFound "b" ∈ (setup_start baseWorld).1 ∧
      Event.shapeStartFound "a" ∈ (setup_start baseWorld).1 ∧
      Event.shapeStartFound "c" ∈ (setup_start baseWorld).1 := by
  have h := setup_start_missing_shape_skipped baseWorld exConfig exSetup
    exIntf (by decide) (by decide) (by decide) (by decide)
    (Or.inr ⟨"jack.service", by decide, by decide, by decide⟩)
  refine ⟨by decide, by decide, h.1, h.2.1, ?_, ?_, ?_⟩
  · exact (h.2.2 "b" (by decide)).1 (by decide)
  · exact (h.2.2 "a" (by decide)).2 (by decide)
  · exact (h.2.2 "c" (by decide)).2 (by decide)

/-- C6: during START, a descriptor interface name absent from the
configuration's interface map aborts the whole operation with the
interface-not-found error, before any shape is looked up or processed. -/
theorem setup_start_interface_not_found_aborts (w : World) (config : Config)
    (sc : SetupConfig)
    (hcfg : Config.load w = .ok config)
    (hdir : w.readDir config.data.setups_dir = .ok ())
    (hsc : w.loadSetupFile "setup.toml" = .ok sc)
    (hnone : config.get_audio_interface sc.setup.interface = none) :
    (setup_start w).2 = .error (.interfaceNotFound sc.setup.interface) ∧
      ∀ name, Event.shapeStartAttempt name ∉ (setup_start w).1 ∧
        Event.shapeStartFound name ∉ (setup_start w).1 ∧
        Event.shapeStartNotFound name ∉ (setup_start w).1 := by
  simp [setup_start, SetupConfig.load_from_path, Config.get_setups_dir,
    hcfg, hdir, hsc, hnone]

/-- C6, witness: concrete descriptor naming the missing interface "missing". -/
theorem setup_start_interface_not_found_aborts_witness :
    (setup_start badIntfWorld).2 = .error (.interfaceNotFound "missing") ∧
      ∀ name, Event.shapeStartAttempt name ∉ (setup_start badIntfWorld).1 ∧
        Event.shapeStartFound name ∉ (setup_start badIntfWorld).1 ∧
        Event.shapeStartNotFound name ∉ (setup_start badIntfWorld).1 :=
  setup_start_interface_not_found_aborts badIntfWorld exConfig exSetupBadIntf
    (by decide) (by decide) (by decide) (by decide)

/-- C7: with the OBAKE_CONFIG_FILE override set, Config::load loads exactly the
named path: a load failure there is the result of the whole resolution, with no
fallback to the user or system search paths regardless of their state. -/
theorem config_load_override_no_fallback (w : World) (p : String) (e : Err)
    (hov : w.obakeConfigFile = some p)
    (he : w.loadConfigFile p = .error e) :
    Config.load w = .error e := by
  simp [Config.load, Config.load_from_path, hov, he]

/-- C7, witness: the override names a broken file while both search paths exist
and would parse fine, yet resolution fails with the override's error. -/
theorem config_load_override_no_fallback_witness :
    overrideFailWorld.fileExists "/etc/obake/config.toml" = true ∧
      overrideFailWorld.loadConfigFile "/etc/obake/config.toml" = .ok exConfig ∧
      Config.load overrideFailWorld = .error (.loadFailed "/override/config.toml") :=
  ⟨by decide, by decide,
   config_load_override_no_fallback overrideFailWorld "/override/config.toml"
     (.loadFailed "/override/config.toml") (by decide) (by decide)⟩

/-- C8: during START, an interface without a unit issues no service-manager
start operation, is not an error, and shape processing still runs in full. -/
theorem setup_start_no_unit_skips_operation (w : World) (config : Config)
    (sc : SetupConfig) (intf : AudioInterface)
    (hcfg : Config.load w = .ok config)
    (hdir : w.readDir config.data.setups_dir = .ok ())
    (hsc : w.loadSetupFile "setup.toml" = .ok sc)
    (hintf : config.get_audio_interface sc.setup.interface = some intf)
    (hu : intf.unit = none) :
    (setup_start w).2 = .ok () ∧
      (∀ u, Event.startUnit u ∉ (setup_start w).1) ∧
      (setup_start w).1.filterMap startAttemptName = sc.setup.shapes := by
  have htrace : (setup_start w).1 = [Event.loadConfig,
      Event.listSetupsDir config.data.setups_dir, Event.loadSetup "setup.toml",
      Event.loadConfig] ++ sc.setup.shapes.flatMap (startShapeStep sc) := by
    simp [setup_start, SetupConfig.load_from_path, Config.get_setups_dir,
      hcfg, hdir, hsc, hintf, hu]
  refine ⟨?_, ?_, ?_⟩
  · simp [setup_start, SetupConfig.load_from_path, Config.get_setups_dir,
      hcfg, hdir, hsc, hintf, hu]
  · intro u hmem
    rw [htrace] at hmem
    rcases List.mem_append.mp hmem with h | h
    · simp at h
    · rcases startShapeStep_only_shape_events sc _ _ h with ⟨n, hn | hn | hn⟩ <;>
        exact Event.noConfusion hn
  · rw [htrace, List.filterMap_append, filterMap_startShapeStep]
    simp [startAttemptName]

/-- C8, witness: descriptor naming the unit-less "alsa" interface. -/
theorem setup_start_no_unit_skips_operation_witness :
    (setup_start noUnitWorld).2 = .ok () ∧
      (∀ u, Event.startUnit u ∉ (setup_start noUnitWorld).1) ∧
      (setup_start noUnitWorld).1.filterMap startAttemptName = ["a", "b", "c"] :=
  setup_start_no_unit_skips_operation noUnitWorld exConfig exSetupNoUnit
    exIntfNoUnit (by decide) (by decide) (by decide) (by decide) (by decide)


/-- Every descriptor-load event of a START run names the literal path
"setup.toml". -/
theorem loadSetup_mem_start (w : World) (p : String)
    (h : Event.loadSetup p ∈ (setup_start w).1) : p = "setup.toml" := by
  have hshape : ∀ (sc : SetupConfig),
      (∃ a ∈ sc.setup.shapes, Event.loadSetup p ∈ startShapeStep sc a) →
        False := by
    rintro sc ⟨n, _, hmem⟩
    cases hg : sc.get_shape n <;> simp [startShapeStep, hg] at hmem
  rcases h1 : Config.load w with e | config
  · simp [setup_start, h1] at h
  · rcases h2 : w.readDir config.get_setups_dir with e | u2
    · simp [setup_start, h1, h2] at h
    · rcases h3 : w.loadSetupFile "setup.toml" with e | sc
      · simp [setup_start, SetupConfig.load_from_path, h1, h2, h3] at h
        exact h
      · rcases h4 : config.get_audio_interface sc.setup.interface with _ | intf
        · simp [setup_start, SetupConfig.load_from_path, h1, h2, h3, h4] at h
          exact h
        · rcases h5 : intf.unit with _ | u
          · simp [setup_start, SetupConfig.load_from_path, h1, h2, h3, h4,
              h5] at h
            rcases h with h | h
            · exact h
            · exact absurd h (hshape sc)
          · rcases h6 : w.connectManager with e | u6
            · simp [setup_start, SetupConfig.load_from_path, h1, h2, h3, h4,
                h5, h6] at h
              exact h
            · rcases h7 : w.startUnit u with e | u7
              · simp [setup_start, SetupConfig.load_from_path, h1, h2, h3,
                  h4, h5, h6, h7] at h
                exact h
              · simp [setup_start, SetupConfig.load_from_path, h1, h2, h3,
                  h4, h5, h6, h7] at h
                rcases h with h | h
                · exact h
                · exact absurd h (hshape sc)

/-- Shape of every possible STOP trace: the descriptor load at "setup.toml" is
always the first event, followed (when the load succeeds) by the reversed shape
pass, the config load, and possibly one unit-stop attempt. -/
theorem setup_stop_trace_shape (w : World) :
    (∃ e, w.loadSetupFile "setup.toml" = .error e ∧
      (setup_stop w).1 = [Event.loadSetup "setup.toml"]) ∨
    (∃ sc, w.loadSetupFile "setup.toml" = .ok sc ∧
      ((setup_stop w).1 = Event.loadSetup "setup.toml" ::
          (sc.setup.shapes.reverse.flatMap (stopShapeStep sc) ++
            [Event.loadConfig]) ∨
       ∃ u, (setup_stop w).1 = Event.loadSetup "setup.toml" ::
          (sc.setup.shapes.reverse.flatMap (stopShapeStep sc) ++
            [Event.loadConfig, Event.stopUnit u]))) := by
  rcases h1 : w.loadSetupFile "setup.toml" with e | sc
  · exact Or.inl ⟨e, rfl, by simp [setup_stop, SetupConfig.load_from_path, h1]⟩
  · refine Or.inr ⟨sc, rfl, ?_⟩
    rcases h2 : Config.load w with e | config
    · exact Or.inl (by simp [setup_stop, SetupConfig.load_from_path, h1, h2])
    · rcases h3 : config.get_audio_interface sc.setup.interface with _ | intf
      · exact Or.inl (by simp [setup_stop, SetupConfig.load_from_path, h1,
          h2, h3])
      · rcases h4 : intf.unit with _ | u
        · exact Or.inl (by simp [setup_stop, SetupConfig.load_from_path, h1,
            h2, h3, h4])
        · rcases h5 : w.connectManager with e | u5
          · exact Or.inl (by simp [setup_stop, SetupConfig.load_from_path,
              h1, h2, h3, h4, h5])
          · rcases h6 : w.stopUnit u with e | u6 <;>
              exact Or.inr ⟨u, by simp [setup_stop, SetupConfig.load_from_path,
                h1, h2, h3, h4, h5, h6]⟩

/-- C9: an attempted descriptor load in either START or STOP always names the
literal relative path "setup.toml" — the configured setups directory plays no
part in locating the descriptor — and STOP always begins by loading it. -/
theorem setup_descriptor_fixed_path (w : World) (p : String)
    (h : Event.loadSetup p ∈ (setup_start w).1 ∨
      Event.loadSetup p ∈ (setup_stop w).1) :
    p = "setup.toml" ∧
      ∃ rest, (setup_stop w).1 = Event.loadSetup "setup.toml" :: rest := by
  have hfirst : ∃ rest,
      (setup_stop w).1 = Event.loadSetup "setup.toml" :: rest := by
    rcases setup_stop_trace_shape w with ⟨e, _, heq⟩ | ⟨sc, _, heq | ⟨u, heq⟩⟩
    · exact ⟨[], heq⟩
    · exact ⟨_, heq⟩
    · exact ⟨_, heq⟩
  refine ⟨?_, hfirst⟩
  rcases h with h | h
  · exact loadSetup_mem_start w p h
  · have hshape : ∀ (sc : SetupConfig) (names : List String),
        Event.loadSetup p ∈ names.flatMap (stopShapeStep sc) → False := by
      intro sc names hmem
      rcases stopShapeStep_only_shape_events sc names _ hmem with
        ⟨n, hn | hn | hn⟩ <;> exact Event.noConfusion hn
    rcases setup_stop_trace_shape w with ⟨e, _, heq⟩ | ⟨sc, _, heq | ⟨u, heq⟩⟩ <;>
      rw [heq] at h <;> simp at h
    · exact h
    · rcases h with h | h
      · exact h
      · exact absurd (List.mem_flatMap.mpr (by simpa using h)) (hshape sc _)
    · rcases h with h | h
      · exact h
      · exact absurd (List.mem_flatMap.mpr (by simpa using h)) (hshape sc _)

/-- C9, witness: in the baseline world, whose setups directory is "/setups",
the descriptor-load event of STOP names "setup.toml" and is the first event. -/
theorem setup_descriptor_fixed_path_witness :
    "setup.toml" = "setup.toml" ∧
      ∃ rest, (setup_stop baseWorld).1 = Event.loadSetup "setup.toml" :: rest :=
  setup_descriptor_fixed_path baseWorld "setup.toml"
    (Or.inr (by decide))

/-- C10: during START, a failure to list the configured setups directory aborts
the run with that error before the descriptor is loaded and before any unit
operation is issued. -/
theorem setup_start_setups_dir_unreadable_aborts (w : World) (config : Config)
    (e : Err)
    (hcfg : Config.load w = .ok config)
    (hdir : w.readDir config.data.setups_dir = .error e) :
    setup_start w =
        ([.loadConfig, .listSetupsDir config.data.setups_dir], .error e) ∧
      (∀ p, Event.loadSetup p ∉ (setup_start w).1) ∧
      (∀ u, Event.startUnit u ∉ (setup_start w).1) ∧
      (∀ u, Event.stopUnit u ∉ (setup_start w).1) := by
  have h : setup_start w =
      ([.loadConfig, .listSetupsDir config.data.setups_dir], .error e) := by
    simp [setup_start, Config.get_setups_dir, hcfg, hdir]
  refine ⟨h, ?_, ?_, ?_⟩ <;> intro x hx <;> rw [h] at hx <;> simp at hx

/-- C10, witness: concrete world with an unreadable setups directory. -/
theorem setup_start_setups_dir_unreadable_aborts_witness :
    setup_start dirFailWorld =
        ([.loadConfig, .listSetupsDir "/setups"], .error (.ioError "/setups")) ∧
      (∀ p, Event.loadSetup p ∉ (setup_start dirFailWorld).1) ∧
      (∀ u, Event.startUnit u ∉ (setup_start dirFailWorld).1) ∧
      (∀ u, Event.stopUnit u ∉ (setup_start dirFailWorld).1) :=
  setup_start_setups_dir_unreadable_aborts dirFailWorld exConfig
    (.ioError "/setups") (by decide) (by decide)
